import Mathlib

/-!
# Verification of the IRTOMS core (AI-TRAIN-MANAGEMENT)

Shallow embedding of the computational core of the repository:

* `src/services/RealTimeDataHub.js` — telemetry normalization quality
  scoring, Kalman-style state estimation (fusion), and the conflict
  detection engine;
* `src/services/AlgorithmicBrain.js` — schedule right-shifting, local
  repair, and the discrete event simulation;
* `src/services/AITrafficOptimizer.js` — performance metrics.

JavaScript numbers are modelled as exact rationals `ℚ` (the reasoning in
this file never depends on rounding); positions are latitude/longitude
pairs.  The great-circle distance (`calculateDistance`, a trigonometric
haversine over floating point in the source) is embedded over `ℝ`.
Where a JS expression `x / y` can have a zero denominator (the JS result
is then the non-finite sentinel `NaN`/`Infinity`, not an exception), the
quotient is modelled as `Option ℚ` with `none` standing for the
non-finite sentinel.  Database / `this`-method lookups performed inside
the embedded functions are passed as explicit function parameters.
-/

namespace IRTOMS

/-- A `{lat, lon}` pair as used throughout `RealTimeDataHub.js`,
parametric in the number type (`ℚ` for the exact fragments, `ℝ` for the
haversine distance). -/
structure Position (α : Type) where
  lat : α
  lon : α
deriving DecidableEq, Repr

/-- The `velocity` sub-record of the Kalman filter state. -/
structure Velocity where
  speed : ℚ
  heading : ℚ
deriving DecidableEq, Repr

/-- The `state` sub-record of the Kalman filter
(`initializeKalmanFilter`, RealTimeDataHub.js:132-136). -/
structure KState where
  position : Position ℚ
  velocity : Velocity
  acceleration : ℚ
deriving DecidableEq, Repr

/-- The `covariance` sub-record (RealTimeDataHub.js:137-141). -/
structure Covariance where
  position : ℚ
  velocity : ℚ
  acceleration : ℚ
deriving DecidableEq, Repr

/-- The `processNoise` sub-record (RealTimeDataHub.js:142-146); carried
for fidelity, never read by any update. -/
structure ProcessNoise where
  position : ℚ
  velocity : ℚ
  acceleration : ℚ
deriving DecidableEq, Repr

/-- The `measurementNoise` sub-record (RealTimeDataHub.js:147-151). -/
structure MeasurementNoise where
  gps : ℚ
  trackCircuit : ℚ
  stationReport : ℚ
deriving DecidableEq, Repr

/-- One per-train estimator, as built by `initializeKalmanFilter`
(RealTimeDataHub.js:128-153). -/
structure Estimator where
  trainId : String
  state : KState
  covariance : Covariance
  processNoise : ProcessNoise
  measurementNoise : MeasurementNoise
deriving DecidableEq, Repr

/-- Embedding of `initializeKalmanFilter(trainId)` (RealTimeDataHub.js:128-153). -/
def initializeKalmanFilter (trainId : String) : Estimator :=
  { trainId := trainId
    state := { position := { lat := 0, lon := 0 }
               velocity := { speed := 0, heading := 0 }
               acceleration := 0 }
    covariance := { position := 10.0, velocity := 5.0, acceleration := 2.0 }
    processNoise := { position := 0.1, velocity := 0.5, acceleration := 1.0 }
    measurementNoise := { gps := 3.0, trackCircuit := 50.0, stationReport := 100.0 } }

/-- The fields of a normalized GPS reading read by the fusion step
(`ingestGPSData`, RealTimeDataHub.js:47-64): `position.latitude`,
`position.longitude`, `speed`, plus the `quality` score and `timestamp`
carried on every normalized record (never read by fusion itself). -/
structure GPSReading where
  latitude : ℚ
  longitude : ℚ
  speed : ℚ
  quality : ℚ
  timestamp : ℚ
deriving DecidableEq, Repr

/-- The fields of a normalized track-circuit reading read by the fusion
step (`ingestTrackCircuitData`, RealTimeDataHub.js:66-79): `sectionId`,
`occupied`, `trainDetected` (`circuitData.trainId || null`), plus
`quality` and `timestamp`. -/
structure TrackCircuitReading where
  sectionId : String
  occupied : Bool
  trainDetected : Option String
  quality : ℚ
  timestamp : ℚ
deriving DecidableEq, Repr

/-- The fields of a normalized station report read by the fusion step
(`ingestStationReport`, RealTimeDataHub.js:81-97): `stationId` and the
`event` string (compared against `'ARRIVAL'`/`'DEPARTURE'`), plus
`quality` and `timestamp`. -/
structure StationReportReading where
  stationId : String
  event : String
  quality : ℚ
  timestamp : ℚ
deriving DecidableEq, Repr

/-- A normalized reading, discriminated by its `source` tag exactly as
the `switch (data.source)` in `fuseDataSources`
(RealTimeDataHub.js:158-170). -/
inductive NormalizedData
  | gps (g : GPSReading)
  | trackCircuit (c : TrackCircuitReading)
  | stationReport (r : StationReportReading)
deriving DecidableEq, Repr

/-- The lookups consulted during fusion: `getTrackSectionPosition`
(RealTimeDataHub.js:597-600) and `getStationPosition`
(RealTimeDataHub.js:602-611).  Both are `this`-method calls inside the
update steps; they are passed explicitly here.  `none` models a falsy
result (the `if (sectionPosition)` / `if (stationPosition)` guards). -/
structure Env where
  sectionPos : String → Option (Position ℚ)
  stationPos : String → Option (Position ℚ)

/-- Embedding of `calculateKalmanGain(covariance, measurementNoise)`
(RealTimeDataHub.js:520-522). -/
def calculateKalmanGain (covariance measurementNoise : ℚ) : ℚ :=
  covariance / (covariance + measurementNoise)

/-- Embedding of `updateWithGPS(state, gpsData, estimator)`
(RealTimeDataHub.js:185-203). -/
def updateWithGPS (state : KState) (gpsData : GPSReading) (estimator : Estimator) :
    KState :=
  let weight := calculateKalmanGain estimator.covariance.position
      estimator.measurementNoise.gps
  { state with
    position :=
      { lat := state.position.lat + weight * (gpsData.latitude - state.position.lat)
        lon := state.position.lon + weight * (gpsData.longitude - state.position.lon) }
    velocity :=
      { state.velocity with
        speed := state.velocity.speed + weight * (gpsData.speed - state.velocity.speed) } }

/-- Embedding of `updateWithTrackCircuit(state, circuitData, estimator)`
(RealTimeDataHub.js:205-228).  The source guards on
`circuitData.occupied && circuitData.trainDetected` (`trainDetected` is
any non-null detected train id — it is not compared with the
estimator's own train), then on the section position being truthy.
The `getTrackSectionPosition` call is the `env.sectionPos` parameter.
This definition embeds the awaited (intended) reading of that call:
the lookup's resolved value flows into the state.  In the source the
`async` lookup is NOT awaited (line 209), so the guard sees a truthy
Promise and the written coordinates are `NaN`; that literal semantics
is embedded separately as `updateWithTrackCircuitJS` below.  The
properties proved from this definition (the shape of the
`occupied && trainDetected` guard, and that only `state` — never the
covariance — is written) hold under either semantics. -/
def updateWithTrackCircuit (env : Env) (state : KState)
    (circuitData : TrackCircuitReading) (estimator : Estimator) : KState :=
  if circuitData.occupied && circuitData.trainDetected.isSome then
    match env.sectionPos circuitData.sectionId with
    | some sectionPosition =>
        let weight := calculateKalmanGain estimator.covariance.position
            estimator.measurementNoise.trackCircuit
        { state with
          position :=
            { lat := state.position.lat + weight * (sectionPosition.lat - state.position.lat)
              lon := state.position.lon + weight * (sectionPosition.lon - state.position.lon) } }
    | none => state
  else state

/-- Embedding of `updateWithStationReport(state, reportData, estimator)`
(RealTimeDataHub.js:230-254).  The `getStationPosition` call is the
`env.stationPos` parameter.  As with `updateWithTrackCircuit`, this is
the awaited (intended) reading; the source does not await the `async`
lookup (line 232), so in the literal semantics the guard is vacuously
truthy and the written coordinates are `NaN` — embedded separately as
`updateWithStationReportJS` below. -/
def updateWithStationReport (env : Env) (state : KState)
    (reportData : StationReportReading) (estimator : Estimator) : KState :=
  match env.stationPos reportData.stationId with
  | some stationPosition =>
      let weight := calculateKalmanGain estimator.covariance.position
          estimator.measurementNoise.stationReport
      { state with
        position :=
          { lat := state.position.lat + weight * (stationPosition.lat - state.position.lat)
            lon := state.position.lon + weight * (stationPosition.lon - state.position.lon) }
        velocity :=
          { state.velocity with
            speed :=
              if reportData.event = "ARRIVAL" || reportData.event = "DEPARTURE" then 0
              else state.velocity.speed } }
  | none => state

/-- Embedding of `calculateConfidence(estimator)` (RealTimeDataHub.js:542-547). -/
def calculateConfidence (estimator : Estimator) : ℚ :=
  let positionConfidence := 1.0 - min (estimator.covariance.position / 100) 1.0
  let velocityConfidence := 1.0 - min (estimator.covariance.velocity / 50) 1.0
  (positionConfidence + velocityConfidence) / 2

/-- The fused output record returned by `fuseDataSources`
(RealTimeDataHub.js:175-182), minus the wall-clock `timestamp`. -/
structure FusedState where
  trainId : String
  position : Position ℚ
  speed : ℚ
  heading : ℚ
  confidence : ℚ
deriving DecidableEq, Repr

/-- One iteration of the `for (const data of newDataArray)` loop in
`fuseDataSources` (RealTimeDataHub.js:158-170). -/
def fuseStep (env : Env) (estimator : Estimator) (state : KState)
    (data : NormalizedData) : KState :=
  match data with
  | .gps g => updateWithGPS state g estimator
  | .trackCircuit c => updateWithTrackCircuit env state c estimator
  | .stationReport r => updateWithStationReport env state r estimator

/-- Embedding of `fuseDataSources(estimator, newDataArray)`
(RealTimeDataHub.js:155-183): fold every reading into a copy of
`estimator.state`, write the result back into the estimator, and return
the fused output; the second component is the updated estimator
(`estimator.state = fusedState` mutates it in place in the source). -/
def fuseDataSources (env : Env) (estimator : Estimator)
    (newDataArray : List NormalizedData) : FusedState × Estimator :=
  let fusedState := newDataArray.foldl (fuseStep env estimator) estimator.state
  let estimator' := { estimator with state := fusedState }
  ({ trainId := estimator.trainId
     position := fusedState.position
     speed := fusedState.velocity.speed
     heading := fusedState.velocity.heading
     confidence := calculateConfidence estimator' }, estimator')

/-- A sequence of fusion updates applied to one estimator — the repeated
`updateTrainState` → `fuseDataSources` calls of the hub
(RealTimeDataHub.js:104-126), one list of readings per update. -/
def fuseMany (env : Env) (estimator : Estimator)
    (batches : List (List NormalizedData)) : Estimator :=
  batches.foldl (fun e b => (fuseDataSources env e b).2) estimator

/-! ## Conflict detection engine (RealTimeDataHub.js, Layer 3) -/

/-- The fields of an `activeTrains` entry read by the pairwise and
per-station detectors (`detectSafetyDistanceViolations`,
`detectResourceOverallocation`): `trainId`, `position`, `speed`. -/
structure ActiveTrain (α : Type) where
  trainId : String
  position : Position α
  speed : α
deriving DecidableEq, Repr

/-- A conflict record as pushed by `detectSafetyDistanceViolations`
(RealTimeDataHub.js:401-409), minus the free-text `description`. -/
structure SafetyConflict (α : Type) where
  type : String
  severity : String
  trains : List String
  distance : α
  location : Position α
  recommendedAction : String
deriving DecidableEq, Repr

/-- The ordered pairs `(trains[i], trains[j])` with `i < j`, in the
iteration order of the nested `for` loops used by the pairwise
detectors (RealTimeDataHub.js:390-393). -/
def orderedPairs {α : Type} : List α → List (α × α)
  | [] => []
  | x :: xs => xs.map (fun y => (x, y)) ++ orderedPairs xs

/-- Embedding of `detectSafetyDistanceViolations(trains)`
(RealTimeDataHub.js:386-415): for every ordered pair, flag a CRITICAL /
EMERGENCY_HALT conflict when the distance between the two positions is
strictly below `SAFETY_DISTANCE_KM = 2`.  The `this.calculateDistance`
method call (real-valued haversine trigonometry, embedded below as
`calculateDistance` over `ℝ`) is the `dist` parameter. -/
def detectSafetyDistanceViolations {α : Type} [LinearOrderedField α]
    (dist : Position α → Position α → α) (trains : List (ActiveTrain α)) :
    List (SafetyConflict α) :=
  (orderedPairs trains).filterMap (fun p =>
    let distance := dist p.1.position p.2.position
    if distance < 2 then
      some { type := "SAFETY_DISTANCE_VIOLATION"
             severity := "CRITICAL"
             trains := [p.1.trainId, p.2.trainId]
             distance := distance
             location := p.1.position
             recommendedAction := "EMERGENCY_HALT" }
    else none)

/-- JavaScript `Math.atan2(y, x)` over exact reals (no signed zeros). -/
noncomputable def atan2 (y x : ℝ) : ℝ :=
  if 0 < x then Real.arctan (y / x)
  else if x < 0 then
    (if 0 ≤ y then Real.arctan (y / x) + Real.pi else Real.arctan (y / x) - Real.pi)
  else if 0 < y then Real.pi / 2
  else if y < 0 then -(Real.pi / 2)
  else 0

/-- Embedding of `calculateDistance(pos1, pos2)` (RealTimeDataHub.js:524-534):
haversine great-circle distance in kilometres, over exact reals. -/
noncomputable def calculateDistance (pos1 pos2 : Position ℝ) : ℝ :=
  let R : ℝ := 6371
  let dLat := (pos2.lat - pos1.lat) * Real.pi / 180
  let dLon := (pos2.lon - pos1.lon) * Real.pi / 180
  let a := Real.sin (dLat / 2) * Real.sin (dLat / 2) +
      Real.cos (pos1.lat * Real.pi / 180) * Real.cos (pos2.lat * Real.pi / 180) *
      Real.sin (dLon / 2) * Real.sin (dLon / 2)
  let c := 2 * atan2 (Real.sqrt a) (Real.sqrt (1 - a))
  R * c

/-- A conflict record as pushed by `detectResourceOverallocation`
(RealTimeDataHub.js:344-351), minus the free-text `description`. -/
structure ResourceConflict where
  type : String
  severity : String
  trains : List String
  location : String
  recommendedAction : String
deriving DecidableEq, Repr

/-- The loop body of `detectResourceOverallocation`
(RealTimeDataHub.js:330-354).  The accumulator is the
`platformOccupancy` map (modelled as a function from
station × 10-minute bucket to the id list pushed so far; the JS key is
the string `` `${station}_${bucket}` ``) together with the conflicts
pushed so far.  `currentStation` stands for the `getCurrentStation`
database lookup; `now` for `Date.now()` in milliseconds. -/
def resourceStep (currentStation : String → Option String) (now : ℤ)
    (acc : (String × ℤ → List String) × List ResourceConflict)
    (train : ActiveTrain ℚ) :
    (String × ℤ → List String) × List ResourceConflict :=
  match currentStation train.trainId with
  | some station =>
      if train.speed < 5 then
        let key : String × ℤ := (station, Int.fdiv now (10 * 60 * 1000))
        let occupants := acc.1 key ++ [train.trainId]
        let occ' : String × ℤ → List String :=
          fun k => if k = key then occupants else acc.1 k
        if occupants.length > 2 then
          (occ', acc.2 ++
            [{ type := "RESOURCE_OVERALLOCATION"
               severity := "MEDIUM"
               trains := occupants
               location := station
               recommendedAction := "STAGGER_ARRIVALS" }])
        else (occ', acc.2)
      else acc
  | none => acc

/-- Embedding of `detectResourceOverallocation(trains)`
(RealTimeDataHub.js:325-357).  The source pushes the live
`platformOccupancy.get(key)` array into the conflict record; the model
stores its value at push time (identical whenever no later train joins
the same bucket, as in every property proved below). -/
def detectResourceOverallocation (currentStation : String → Option String)
    (now : ℤ) (trains : List (ActiveTrain ℚ)) : List ResourceConflict :=
  (trains.foldl (resourceStep currentStation now) (fun _ => [], [])).2

/-! ## Telemetry normalization quality (RealTimeDataHub.js, Layer 1) -/

/-- The fields of a raw GPS sample read by `calculateGPSQuality`:
`accuracy`, `speed`, `timestamp` (milliseconds). -/
structure RawGPS where
  accuracy : ℚ
  speed : ℚ
  timestamp : ℚ
deriving DecidableEq, Repr

/-- Embedding of `calculateGPSQuality(gpsData)` (RealTimeDataHub.js:463-478);
`now` stands for `Date.now()`, so `now - gpsData.timestamp` is the
reading age in milliseconds. -/
def calculateGPSQuality (now : ℚ) (gpsData : RawGPS) : ℚ :=
  let quality : ℚ := 1.0
  let quality := if gpsData.accuracy > 10 then quality * 0.8 else quality
  let quality := if gpsData.accuracy > 50 then quality * 0.6 else quality
  let quality := if gpsData.speed > 200 then quality * 0.5 else quality
  let age := now - gpsData.timestamp
  let quality := if age > 30000 then quality * 0.7 else quality
  max 0.1 quality

/-- Modelled from the spec: the quality formula exactly as the claim
words it — "1.0 multiplied by 0.8 when the stated accuracy radius
exceeds 10 units, further by 0.6 when it exceeds 50 units, by 0.5 when
the reported speed exceeds 200 km/h, and by 0.7 when the reading age
exceeds 30 seconds, floored at 0.1".  Stated independently of
`calculateGPSQuality` so the two can be compared. -/
def gpsQualitySpec (now : ℚ) (gpsData : RawGPS) : ℚ :=
  max 0.1 ((if 10 < gpsData.accuracy then 0.8 else 1) *
    (if 50 < gpsData.accuracy then 0.6 else 1) *
    (if 200 < gpsData.speed then 0.5 else 1) *
    (if 30000 < now - gpsData.timestamp then 0.7 else 1))

/-! ## Schedules and the Real-Time Reconciler (AlgorithmicBrain.js) -/

/-- One entry of `schedule.stations` as built by
`generateRandomTrainSchedule` (AlgorithmicBrain.js:121-127): station,
arrival/departure timestamps in epoch milliseconds, halt flag and
duration. -/
structure StationStop where
  stationId : String
  arrivalTime : ℚ
  departureTime : ℚ
  isHalt : Bool
  haltDuration : ℚ
deriving DecidableEq, Repr

/-- The per-train schedule record (AlgorithmicBrain.js:94-103),
restricted to the fields read or written by the Reconciler and the
simulation: `trainId`, `stations`, `totalDelay`. -/
structure Schedule where
  trainId : String
  stations : List StationStop
  totalDelay : ℚ
deriving DecidableEq, Repr

/-- Embedding of `rightShiftSchedule(schedule, delayMinutes)`
(AlgorithmicBrain.js:511-522): add `delayMinutes * 60 * 1000`
milliseconds to every station stop's arrival and departure time and
accumulate `delayMinutes` into `totalDelay`. -/
def rightShiftSchedule (schedule : Schedule) (delayMinutes : ℚ) : Schedule :=
  let delayMs := delayMinutes * 60 * 1000
  { schedule with
    stations := schedule.stations.map (fun stationStop =>
      { stationStop with
        arrivalTime := stationStop.arrivalTime + delayMs
        departureTime := stationStop.departureTime + delayMs })
    totalDelay := schedule.totalDelay + delayMinutes }

/-- Embedding of `localRepair(affectedSchedule, conflictingSchedule)`
(AlgorithmicBrain.js:524-529).  The body only shallow-copies the
affected schedule (`{...affectedSchedule}`); despite its comments
("Apply priority-based adjustments") it performs no adjustment at
all. -/
def localRepair (affectedSchedule conflictingSchedule : Schedule) : Schedule :=
  let repairedSchedule := affectedSchedule
  repairedSchedule

/-- The `schedule.trains` map of an optimizer individual
(AlgorithmicBrain.js:61-66), as its list of values in iteration
order. -/
structure OptSchedule where
  trains : List Schedule
deriving DecidableEq, Repr

/-- Embedding of `detectConflicts(schedule)` (AlgorithmicBrain.js:472-492): count
station stops whose `` `${stationId}_${arrivalTime}` `` key repeats
(the key is modelled as the pair).  The accumulator mirrors the
`stationOccupancy` map (only key presence matters). -/
def detectConflicts (schedule : OptSchedule) : ℕ :=
  (schedule.trains.foldl (fun acc trainSchedule =>
    trainSchedule.stations.foldl (fun (acc : List (String × ℚ) × ℕ) stationStop =>
      let key := (stationStop.stationId, stationStop.arrivalTime)
      if key ∈ acc.1 then (acc.1, acc.2 + 1) else (key :: acc.1, acc.2)) acc)
    ([], 0)).2

/-- One event of the discrete event simulation
(AlgorithmicBrain.js:292-306). -/
structure SimEvent where
  type : String
  time : ℚ
  trainId : String
  stationId : String
deriving DecidableEq, Repr

/-- The `simulation.metrics` record (AlgorithmicBrain.js:279-285).
`averageDelay` and `onTimePerformance` are `Option ℚ`: `none` models
the non-finite JS value (`NaN`) produced when the corresponding
denominator (`trainSchedules.length`, `simulation.events.length`) is
zero — JS division never throws. -/
structure SimMetrics where
  totalJourneyTime : ℚ
  averageDelay : Option ℚ
  onTimePerformance : Option ℚ
  conflicts : ℕ
  trackUtilization : ℚ
deriving DecidableEq, Repr

/-- The simulation result (AlgorithmicBrain.js:276-286). -/
structure SimResult where
  events : List SimEvent
  metrics : SimMetrics
deriving DecidableEq, Repr

/-- JS division with a zero denominator yields a non-finite sentinel
(`NaN` here, since every numerator below is then also zero) rather than
an error; `none` models that sentinel. -/
def jsDiv (a b : ℚ) : Option ℚ :=
  if b = 0 then none else some (a / b)

/-- Embedding of `runDiscreteEventSimulation(schedule)`
(AlgorithmicBrain.js:273-339): generate ARRIVAL events for every stop
and DEPARTURE events for halts, sort chronologically (the JS
`sort((a, b) => a.time - b.time)` is stable), then accumulate
`totalDelay` and `onTimeCount` over events — the source compares
`event.time` with itself ("Simplified"), so every ARRIVAL has delay 0
and counts as on time.  Finally `averageDelay = totalDelay /
trainSchedules.length / 60000` and `onTimePerformance = onTimeCount /
events.length * 100`. -/
def runDiscreteEventSimulation (schedule : OptSchedule) : SimResult :=
  let events := schedule.trains.foldl (fun acc trainSchedule =>
    acc ++ trainSchedule.stations.foldl (fun acc stationStop =>
      acc ++ [{ type := "ARRIVAL", time := stationStop.arrivalTime,
                trainId := trainSchedule.trainId,
                stationId := stationStop.stationId : SimEvent }] ++
        (if stationStop.isHalt then
          [{ type := "DEPARTURE", time := stationStop.departureTime,
             trainId := trainSchedule.trainId,
             stationId := stationStop.stationId : SimEvent }]
        else [])) []) []
  let events := events.mergeSort (fun a b => a.time ≤ b.time)
  let counts := events.foldl (fun (acc : ℚ × ℕ) event =>
    if event.type = "ARRIVAL" then
      -- expectedTime = actualTime = event.time, so delay = max(0, 0) = 0
      let delay : ℚ := max 0 (event.time - event.time)
      (acc.1 + delay, if delay ≤ 5 * 60 * 1000 then acc.2 + 1 else acc.2)
    else acc) (0, 0)
  let totalDelay := counts.1
  let onTimeCount := counts.2
  { events := events
    metrics :=
      { totalJourneyTime := 0
        averageDelay := (jsDiv totalDelay schedule.trains.length).map (· / (60 * 1000))
        onTimePerformance := (jsDiv onTimeCount events.length).map (· * 100)
        conflicts := detectConflicts schedule
        trackUtilization := 0 } }

/-! ## Optimizer performance metrics (AITrafficOptimizer.js) -/

/-- One schedule entry as read by `calculatePerformanceMetrics`
(AITrafficOptimizer.js:296-306): `trainId`, `actualTime`,
`scheduledTime`. -/
structure PerfEntry where
  trainId : String
  actualTime : ℚ
  scheduledTime : ℚ
deriving DecidableEq, Repr

/-- A train as read by `calculatePerformanceMetrics` (only `id` is
consulted, via `trains.find(t => t.id === entry.trainId)`). -/
structure OptTrain where
  id : String
deriving DecidableEq, Repr

/-- The metrics record of `calculatePerformanceMetrics`
(AITrafficOptimizer.js:282-289). -/
structure PerfMetrics where
  throughput : ℕ
  avgDelay : ℚ
  punctuality : ℚ
  utilization : ℚ
  conflicts : ℕ
  safetyScore : ℚ
deriving DecidableEq, Repr

/-- Embedding of `calculatePerformanceMetrics(schedule, trains)`
(AITrafficOptimizer.js:282-316).  An empty (or missing) schedule
returns the zero-initialised metrics before any division.  The
`this.calculateSectionUtilization` method is defined nowhere in the
class, so the non-empty branch would throw a `TypeError` in JS; it is
abstracted as the `utilization` parameter, which the empty-schedule
path never consults. -/
def calculatePerformanceMetrics (utilization : List PerfEntry → ℚ)
    (schedule : List PerfEntry) (trains : List OptTrain) : PerfMetrics :=
  let metrics : PerfMetrics :=
    { throughput := 0, avgDelay := 0, punctuality := 0, utilization := 0
      conflicts := 0, safetyScore := 100 }
  if schedule.length = 0 then metrics
  else
    let counts := schedule.foldl (fun (acc : ℚ × ℕ) entry =>
      match trains.find? (fun t => t.id = entry.trainId) with
      | some _ =>
          let delay := max 0 (entry.actualTime - entry.scheduledTime)
          (acc.1 + delay, if delay ≤ 300 then acc.2 + 1 else acc.2)
      | none => acc) (0, 0)
    let totalDelay := counts.1
    let onTimeTrains := counts.2
    let processedTrains := schedule.length
    { metrics with
      throughput := processedTrains
      avgDelay := totalDelay / processedTrains
      punctuality := (onTimeTrains / processedTrains : ℚ) * 100
      utilization := utilization schedule }

/-- Embedding of `getTrackSectionPosition(sectionId)` (RealTimeDataHub.js:597-600):
the mock resolves to `{lat: 28.6139 + Math.random() * 0.1, lon: 77.2090 +
Math.random() * 0.1}`; the two `Math.random()` draws (each in `[0,1)`)
are passed explicitly.  Its only caller, `updateWithTrackCircuit`, does
not await the `async` call, so this resolved value is discarded by the
program (see the literal-semantics embedding below). -/
def getTrackSectionPosition (rand1 rand2 : ℚ) (sectionId : String) : Position ℚ :=
  { lat := 28.6139 + rand1 * 0.1, lon := 77.2090 + rand2 * 0.1 }

/-! ### Literal (un-awaited) semantics of the fusion update steps

In the source, `updateWithTrackCircuit` and `updateWithStationReport`
call the `async` lookups `getTrackSectionPosition` /
`getStationPosition` WITHOUT `await` (RealTimeDataHub.js:209 and 232).
The bound variable is therefore always a Promise: the truthiness
guards `if (sectionPosition)` / `if (stationPosition)` always pass,
`.lat` / `.lon` read `undefined`, and the arithmetic
`state.position.lat + weight * (undefined - state.position.lat)`
produces `NaN` — deterministically, on every run, independent of the
lookup's resolved value (and in particular of `Math.random` inside the
`getTrackSectionPosition` mock, whose resolved value is discarded).
The definitions below embed this literal semantics: a JS number that
may be the non-finite `NaN` sentinel is an `Option ℚ` with `none` for
`NaN`, and `NaN` propagates through arithmetic. -/

/-- A `{lat, lon}` pair whose coordinates may be the `NaN` sentinel. -/
structure PositionJS where
  lat : Option ℚ
  lon : Option ℚ
deriving DecidableEq, Repr

/-- The Kalman state under the literal semantics: the position can be
`NaN`-contaminated; the speed/heading never are (no un-awaited value
reaches them). -/
structure KStateJS where
  position : PositionJS
  velocity : Velocity
  acceleration : ℚ
deriving DecidableEq, Repr

/-- The per-train estimator under the literal semantics. -/
structure EstimatorJS where
  trainId : String
  state : KStateJS
  covariance : Covariance
  processNoise : ProcessNoise
  measurementNoise : MeasurementNoise
deriving DecidableEq, Repr

/-- Embedding of `initializeKalmanFilter(trainId)` under the literal
semantics: identical to `initializeKalmanFilter`, with the initial
position coordinates finite. -/
def initializeKalmanFilterJS (trainId : String) : EstimatorJS :=
  { trainId := trainId
    state := { position := { lat := some 0, lon := some 0 }
               velocity := { speed := 0, heading := 0 }
               acceleration := 0 }
    covariance := { position := 10.0, velocity := 5.0, acceleration := 2.0 }
    processNoise := { position := 0.1, velocity := 0.5, acceleration := 1.0 }
    measurementNoise := { gps := 3.0, trackCircuit := 50.0, stationReport := 100.0 } }

/-- The JS merge `x + w * (v - x)` on possibly-`NaN` operands: any
`NaN` (or `undefined`) operand makes the result `NaN`. -/
def jsMerge (x : Option ℚ) (w : ℚ) (v : Option ℚ) : Option ℚ :=
  match x, v with
  | some a, some b => some (a + w * (b - a))
  | _, _ => none

/-- Embedding of `updateWithGPS` (RealTimeDataHub.js:185-203) under the
literal semantics: the GPS coordinates are finite, but a previously
`NaN`-contaminated position stays `NaN`. -/
def updateWithGPSJS (state : KStateJS) (gpsData : GPSReading)
    (estimator : EstimatorJS) : KStateJS :=
  let weight := calculateKalmanGain estimator.covariance.position
      estimator.measurementNoise.gps
  { state with
    position :=
      { lat := jsMerge state.position.lat weight (some gpsData.latitude)
        lon := jsMerge state.position.lon weight (some gpsData.longitude) }
    velocity :=
      { state.velocity with
        speed := state.velocity.speed + weight * (gpsData.speed - state.velocity.speed) } }

/-- Embedding of `updateWithTrackCircuit` (RealTimeDataHub.js:205-228)
under the literal semantics: `sectionPosition` is the un-awaited
Promise of `env.sectionPos`, so the `if (sectionPosition)` guard always
passes and `sectionPosition.lat` / `.lon` are `undefined` (`none`) —
the resolved value in `env` is never consulted. -/
def updateWithTrackCircuitJS (env : Env) (state : KStateJS)
    (circuitData : TrackCircuitReading) (estimator : EstimatorJS) : KStateJS :=
  if circuitData.occupied && circuitData.trainDetected.isSome then
    let weight := calculateKalmanGain estimator.covariance.position
        estimator.measurementNoise.trackCircuit
    { state with
      position :=
        { lat := jsMerge state.position.lat weight none
          lon := jsMerge state.position.lon weight none } }
  else state

/-- Embedding of `updateWithStationReport` (RealTimeDataHub.js:230-254)
under the literal semantics: `stationPosition` is the un-awaited
Promise of `env.stationPos`, so the guard always passes, the written
coordinates are `NaN`, and the speed zeroing on ARRIVAL/DEPARTURE
always applies. -/
def updateWithStationReportJS (env : Env) (state : KStateJS)
    (reportData : StationReportReading) (estimator : EstimatorJS) : KStateJS :=
  let weight := calculateKalmanGain estimator.covariance.position
      estimator.measurementNoise.stationReport
  { state with
    position :=
      { lat := jsMerge state.position.lat weight none
        lon := jsMerge state.position.lon weight none }
    velocity :=
      { state.velocity with
        speed :=
          if reportData.event = "ARRIVAL" || reportData.event = "DEPARTURE" then 0
          else state.velocity.speed } }

/-- Embedding of `calculateConfidence` (RealTimeDataHub.js:542-547)
over the literal-semantics estimator (the covariance block is plain
rational; no `NaN` reaches it). -/
def calculateConfidenceJS (estimator : EstimatorJS) : ℚ :=
  let positionConfidence := 1.0 - min (estimator.covariance.position / 100) 1.0
  let velocityConfidence := 1.0 - min (estimator.covariance.velocity / 50) 1.0
  (positionConfidence + velocityConfidence) / 2

/-- The fused output record (RealTimeDataHub.js:175-182) under the
literal semantics. -/
structure FusedStateJS where
  trainId : String
  position : PositionJS
  speed : ℚ
  heading : ℚ
  confidence : ℚ
deriving DecidableEq, Repr

/-- One iteration of the `for (const data of newDataArray)` loop of
`fuseDataSources` under the literal semantics. -/
def fuseStepJS (env : Env) (estimator : EstimatorJS) (state : KStateJS)
    (data : NormalizedData) : KStateJS :=
  match data with
  | .gps g => updateWithGPSJS state g estimator
  | .trackCircuit c => updateWithTrackCircuitJS env state c estimator
  | .stationReport r => updateWithStationReportJS env state r estimator

/-- Embedding of `fuseDataSources(estimator, newDataArray)`
(RealTimeDataHub.js:155-183) under the literal semantics. -/
def fuseDataSourcesJS (env : Env) (estimator : EstimatorJS)
    (newDataArray : List NormalizedData) : FusedStateJS × EstimatorJS :=
  let fusedState := newDataArray.foldl (fuseStepJS env estimator) estimator.state
  let estimator' := { estimator with state := fusedState }
  ({ trainId := estimator.trainId
     position := fusedState.position
     speed := fusedState.velocity.speed
     heading := fusedState.velocity.heading
     confidence := calculateConfidenceJS estimator' }, estimator')

/-! ## Helper lemmas -/

/-- The function `fuseDataSources` writes only `estimator.state` back; the
covariance block of the returned estimator is untouched. -/
theorem fuseDataSources_covariance (env : Env) (e : Estimator)
    (b : List NormalizedData) :
    ((fuseDataSources env e b).2).covariance = e.covariance := rfl

/-- Across any sequence of fusion updates the covariance block is
untouched. -/
theorem fuseMany_covariance (env : Env) (e : Estimator)
    (bs : List (List NormalizedData)) :
    (fuseMany env e bs).covariance = e.covariance := by
  induction bs generalizing e with
  | nil => rfl
  | cons b bs ih =>
      rw [show fuseMany env e (b :: bs) =
        fuseMany env ((fuseDataSources env e b).2) bs from rfl, ih]
      exact fuseDataSources_covariance env e b

/-- The confidence reported after any sequence of fusion updates on a
freshly initialized estimator is the constant `0.9`. -/
theorem confidence_after_fusion (env : Env) (trainId : String)
    (batches : List (List NormalizedData)) (batch : List NormalizedData) :
    (fuseDataSources env (fuseMany env (initializeKalmanFilter trainId) batches)
        batch).1.confidence = 0.9 := by
  have h : (fuseMany env (initializeKalmanFilter trainId) batches).covariance =
      { position := 10.0, velocity := 5.0, acceleration := 2.0 } :=
    fuseMany_covariance env (initializeKalmanFilter trainId) batches
  show calculateConfidence _ = 0.9
  unfold calculateConfidence
  rw [show ({ fuseMany env (initializeKalmanFilter trainId) batches with
      state := _ } : Estimator).covariance =
    (fuseMany env (initializeKalmanFilter trainId) batches).covariance from rfl, h]
  norm_num

/-! ## Claim theorems -/

/-- C5: for every fused train state, for any reading qualities and any
sequence of fusion updates starting from the initialized estimator,
the reported confidence — the average of (1 − normalized position
uncertainty) and (1 − normalized velocity uncertainty) computed by
`calculateConfidence` — lies in `[0, 1]`. -/
theorem fused_confidence_in_unit_interval (env : Env) (trainId : String)
    (batches : List (List NormalizedData)) (batch : List NormalizedData) :
    0 ≤ (fuseDataSources env (fuseMany env (initializeKalmanFilter trainId) batches)
        batch).1.confidence ∧
    (fuseDataSources env (fuseMany env (initializeKalmanFilter trainId) batches)
        batch).1.confidence ≤ 1 := by
  rw [confidence_after_fusion]
  norm_num

/-- C10: the covariance block set by `initializeKalmanFilter` (position
10.0, velocity 5.0) is never modified by any sequence of fusion
updates, and consequently the confidence reported for every fused state
equals the constant 0.9. -/
theorem covariance_constant_confidence_const (env : Env) (trainId : String)
    (batches : List (List NormalizedData)) (batch : List NormalizedData) :
    (fuseMany env (initializeKalmanFilter trainId) batches).covariance =
      (initializeKalmanFilter trainId).covariance ∧
    (fuseDataSources env (fuseMany env (initializeKalmanFilter trainId) batches)
        batch).1.confidence = 0.9 :=
  ⟨fuseMany_covariance env (initializeKalmanFilter trainId) batches,
   confidence_after_fusion env trainId batches batch⟩

/-- C4 (code evaluation): `localRepair` returns the affected schedule
unchanged for every input — it is the identity on its first argument,
so no newly introduced conflict with the shifted schedule is ever
removed, contradicting its own "Apply priority-based adjustments"
comment and the spec's local-repair contract. -/
theorem localRepair_is_identity (affected conflicting : Schedule) :
    localRepair affected conflicting = affected := rfl

/-- C9: `calculateGPSQuality` equals the spec formula — 1.0 multiplied
by 0.8 when accuracy exceeds 10, further by 0.6 when it exceeds 50, by
0.5 when speed exceeds 200, by 0.7 when the age exceeds 30 s — floored
at 0.1; and the result always lies in `[0.1, 1]`. -/
theorem gps_quality_formula_and_bounds (now : ℚ) (g : RawGPS) :
    calculateGPSQuality now g = gpsQualitySpec now g ∧
    0.1 ≤ calculateGPSQuality now g ∧ calculateGPSQuality now g ≤ 1 := by
  simp only [calculateGPSQuality, gpsQualitySpec]
  split_ifs <;> norm_num [max_def]

/-- C2: a right-shift by a non-negative delay `d` adds exactly
`d` minutes (`d * 60 * 1000` ms) to every remaining schedule entry's
arrival and departure time and adds `d` to the cumulative total delay;
across any sequence of successive right-shifts with non-negative delays
the total delay stays non-negative and is monotonically
non-decreasing. -/
theorem right_shift_adds_delay_monotone (s : Schedule) (d : ℚ) (ds : List ℚ)
    (hd : 0 ≤ d) (h0 : 0 ≤ s.totalDelay) (hds : ∀ x ∈ ds, 0 ≤ x) :
    (rightShiftSchedule s d).stations = s.stations.map (fun st =>
      { st with arrivalTime := st.arrivalTime + d * 60 * 1000
                departureTime := st.departureTime + d * 60 * 1000 }) ∧
    (rightShiftSchedule s d).totalDelay = s.totalDelay + d ∧
    0 ≤ (List.foldl rightShiftSchedule s ds).totalDelay ∧
    ∀ n : ℕ, (List.foldl rightShiftSchedule s (ds.take n)).totalDelay ≤
      (List.foldl rightShiftSchedule s (ds.take (n + 1))).totalDelay := by
  have hsum : ∀ (s' : Schedule) (l : List ℚ),
      (List.foldl rightShiftSchedule s' l).totalDelay = s'.totalDelay + l.sum := by
    intro s' l
    induction l generalizing s' with
    | nil => simp
    | cons x xs ih =>
        rw [List.foldl_cons, ih]
        show (rightShiftSchedule s' x).totalDelay + xs.sum = s'.totalDelay + (x :: xs).sum
        rw [show (rightShiftSchedule s' x).totalDelay = s'.totalDelay + x from rfl,
          List.sum_cons]
        ring
  refine ⟨rfl, rfl, ?_, ?_⟩
  · rw [hsum]
    have hdsum : 0 ≤ ds.sum := List.sum_nonneg hds
    linarith
  · intro n
    rw [hsum, hsum]
    have hmono : (ds.take n).sum ≤ (ds.take (n + 1)).sum := by
      rw [List.take_succ, List.sum_append]
      have htl : 0 ≤ (ds[n]?).toList.sum := by
        cases h : ds[n]? with
        | none => simp
        | some x => simpa using hds x (List.getElem?_mem h)
      linarith
    linarith

/-- Witness for `right_shift_adds_delay_monotone` at a concrete
schedule, a 15-minute delay, and the successive delays `[3, 4]`. -/
theorem right_shift_adds_delay_monotone_witness :
    (0 : ℚ) ≤ 15 ∧
    0 ≤ (Schedule.mk "X" [StationStop.mk "S1" 0 120000 true 2] 0).totalDelay ∧
    (∀ x ∈ [(3 : ℚ), 4], 0 ≤ x) ∧
    ((rightShiftSchedule (Schedule.mk "X" [StationStop.mk "S1" 0 120000 true 2] 0)
        15).stations =
      (Schedule.mk "X" [StationStop.mk "S1" 0 120000 true 2] 0).stations.map (fun st =>
        { st with arrivalTime := st.arrivalTime + 15 * 60 * 1000
                  departureTime := st.departureTime + 15 * 60 * 1000 }) ∧
     (rightShiftSchedule (Schedule.mk "X" [StationStop.mk "S1" 0 120000 true 2] 0)
        15).totalDelay =
       (Schedule.mk "X" [StationStop.mk "S1" 0 120000 true 2] 0).totalDelay + 15 ∧
     0 ≤ (List.foldl rightShiftSchedule
        (Schedule.mk "X" [StationStop.mk "S1" 0 120000 true 2] 0) [(3 : ℚ), 4]).totalDelay ∧
     ∀ n : ℕ, (List.foldl rightShiftSchedule
        (Schedule.mk "X" [StationStop.mk "S1" 0 120000 true 2] 0)
          (([(3 : ℚ), 4]).take n)).totalDelay ≤
      (List.foldl rightShiftSchedule
        (Schedule.mk "X" [StationStop.mk "S1" 0 120000 true 2] 0)
          (([(3 : ℚ), 4]).take (n + 1))).totalDelay) :=
  ⟨by norm_num, by norm_num, by decide,
   right_shift_adds_delay_monotone _ 15 _ (by norm_num) (by norm_num) (by decide)⟩

/-- C3 counterexample: a track-occupancy reading whose detected train
(`"T2"`) is NOT the expected train (the estimator's own `"T1"`) still
moves the fused position — the guard only checks that some train id was
detected, so the claim's "only when the section is reported occupied by
the expected train" is false. -/
theorem track_circuit_corrects_for_wrong_train :
    (TrackCircuitReading.mk "S7" true (some "T2") 1 0).trainDetected ≠
      some (initializeKalmanFilter "T1").trainId ∧
    updateWithTrackCircuit
        { sectionPos := fun _ => some { lat := 1, lon := 1 }, stationPos := fun _ => none }
        (initializeKalmanFilter "T1").state
        (TrackCircuitReading.mk "S7" true (some "T2") 1 0)
        (initializeKalmanFilter "T1") ≠ (initializeKalmanFilter "T1").state := by
  refine ⟨by simp [initializeKalmanFilter], fun hEq => ?_⟩
  have hlat := congrArg (fun st : KState => st.position.lat) hEq
  norm_num [updateWithTrackCircuit, initializeKalmanFilter, calculateKalmanGain] at hlat

/-- C3 (amended): an occupancy reading corrects the fused position
exactly when the section is reported occupied with a non-null detected
train id (any train, not necessarily the expected one) and the section
reference position lookup succeeds; in every other case the reading
leaves the state unchanged. -/
theorem track_circuit_update_guard (env : Env) (state : KState)
    (c : TrackCircuitReading) (est : Estimator) :
    (∀ p : Position ℚ, env.sectionPos c.sectionId = some p → c.occupied = true →
      c.trainDetected.isSome = true →
      updateWithTrackCircuit env state c est =
        { state with position :=
            { lat := state.position.lat +
                calculateKalmanGain est.covariance.position
                  est.measurementNoise.trackCircuit * (p.lat - state.position.lat)
              lon := state.position.lon +
                calculateKalmanGain est.covariance.position
                  est.measurementNoise.trackCircuit * (p.lon - state.position.lon) } }) ∧
    (c.occupied = false ∨ c.trainDetected = none ∨ env.sectionPos c.sectionId = none →
      updateWithTrackCircuit env state c est = state) := by
  constructor
  · intro p hp hocc hdet
    unfold updateWithTrackCircuit
    rw [hocc, hdet, hp]
    rfl
  · intro h
    unfold updateWithTrackCircuit
    rcases h with h | h | h
    · rw [h]
      rfl
    · rw [h]
      simp
    · rw [h]
      split <;> rfl

/-- Witness for `track_circuit_update_guard`: both branches applied at
concrete inputs — a successful correction and an untouched state. -/
theorem track_circuit_update_guard_witness :
    (updateWithTrackCircuit
        { sectionPos := fun _ => some { lat := 1, lon := 1 }, stationPos := fun _ => none }
        (initializeKalmanFilter "T1").state
        (TrackCircuitReading.mk "S7" true (some "T1") 1 0)
        (initializeKalmanFilter "T1") =
      { (initializeKalmanFilter "T1").state with position :=
          { lat := (initializeKalmanFilter "T1").state.position.lat +
              calculateKalmanGain (initializeKalmanFilter "T1").covariance.position
                (initializeKalmanFilter "T1").measurementNoise.trackCircuit *
                ((1 : ℚ) - (initializeKalmanFilter "T1").state.position.lat)
            lon := (initializeKalmanFilter "T1").state.position.lon +
              calculateKalmanGain (initializeKalmanFilter "T1").covariance.position
                (initializeKalmanFilter "T1").measurementNoise.trackCircuit *
                ((1 : ℚ) - (initializeKalmanFilter "T1").state.position.lon) } }) ∧
    (updateWithTrackCircuit
        { sectionPos := fun _ => some { lat := 1, lon := 1 }, stationPos := fun _ => none }
        (initializeKalmanFilter "T1").state
        (TrackCircuitReading.mk "S7" false none 1 0)
        (initializeKalmanFilter "T1") = (initializeKalmanFilter "T1").state) :=
  ⟨(track_circuit_update_guard _ _ _ _).1 { lat := 1, lon := 1 } rfl rfl rfl,
   (track_circuit_update_guard _ _ _ _).2 (Or.inl rfl)⟩

/-- C7: State Estimator fusion is deterministic given timestamp-sorted
input.  Under the source's literal semantics the `async` section- and
station-position lookups are not awaited (RealTimeDataHub.js:209, 232),
so their resolved values — including the `Math.random()` draws inside
the `getTrackSectionPosition` mock — never reach the fused state: the
occupancy and station-report corrections write the deterministic `NaN`
sentinel instead.  Hence for every reading list fed in timestamp order
and every per-train estimator, two runs of the fusion (modelled by two
arbitrary resolved-lookup environments `env1`, `env2`) produce the same
final fused state (position, speed, heading, confidence) and the same
updated estimator. -/
theorem fusion_deterministic_sorted (env1 env2 : Env) (estimator : EstimatorJS)
    (rs : List NormalizedData) :
    fuseDataSourcesJS env1 estimator rs = fuseDataSourcesJS env2 estimator rs := by
  have hfold : rs.foldl (fuseStepJS env1 estimator) estimator.state =
      rs.foldl (fuseStepJS env2 estimator) estimator.state := by
    apply List.foldl_ext
    intro st d _
    cases d with
    | gps g => rfl
    | trackCircuit c => rfl
    | stationReport r => rfl
  unfold fuseDataSourcesJS
  simp only [hfold]

/-- C6: a station receiving exactly three near-stationary trains
(speed < 5) in the same 10-minute bucket yields exactly one
RESOURCE_OVERALLOCATION conflict, severity MEDIUM, action
STAGGER_ARRIVALS, listing all three train ids. -/
theorem resource_overallocation_three_trains
    (currentStation : String → Option String) (now : ℤ)
    (t1 t2 t3 : ActiveTrain ℚ) (s : String)
    (h1 : currentStation t1.trainId = some s)
    (h2 : currentStation t2.trainId = some s)
    (h3 : currentStation t3.trainId = some s)
    (hs1 : t1.speed < 5) (hs2 : t2.speed < 5) (hs3 : t3.speed < 5) :
    detectResourceOverallocation currentStation now [t1, t2, t3] =
      [{ type := "RESOURCE_OVERALLOCATION", severity := "MEDIUM"
         trains := [t1.trainId, t2.trainId, t3.trainId], location := s
         recommendedAction := "STAGGER_ARRIVALS" }] := by
  unfold detectResourceOverallocation
  simp [resourceStep, h1, h2, h3, hs1, hs2, hs3]

/-- Witness for `resource_overallocation_three_trains` at three concrete
trains halted at one station. -/
theorem resource_overallocation_three_trains_witness :
    ((fun _ : String => some "STN") (ActiveTrain.mk "A" ⟨0, 0⟩ (0 : ℚ)).trainId =
      some "STN") ∧
    ((fun _ : String => some "STN") (ActiveTrain.mk "B" ⟨0, 0⟩ (0 : ℚ)).trainId =
      some "STN") ∧
    ((fun _ : String => some "STN") (ActiveTrain.mk "C" ⟨0, 0⟩ (0 : ℚ)).trainId =
      some "STN") ∧
    (ActiveTrain.mk "A" ⟨0, 0⟩ (0 : ℚ)).speed < 5 ∧
    (ActiveTrain.mk "B" ⟨0, 0⟩ (0 : ℚ)).speed < 5 ∧
    (ActiveTrain.mk "C" ⟨0, 0⟩ (0 : ℚ)).speed < 5 ∧
    detectResourceOverallocation (fun _ => some "STN") 0
        [ActiveTrain.mk "A" ⟨0, 0⟩ 0, ActiveTrain.mk "B" ⟨0, 0⟩ 0,
         ActiveTrain.mk "C" ⟨0, 0⟩ 0] =
      [{ type := "RESOURCE_OVERALLOCATION", severity := "MEDIUM"
         trains := ["A", "B", "C"], location := "STN"
         recommendedAction := "STAGGER_ARRIVALS" }] :=
  ⟨rfl, rfl, rfl, by norm_num, by norm_num, by norm_num,
   resource_overallocation_three_trains (fun _ => some "STN") 0
     (ActiveTrain.mk "A" ⟨0, 0⟩ 0) (ActiveTrain.mk "B" ⟨0, 0⟩ 0)
     (ActiveTrain.mk "C" ⟨0, 0⟩ 0) "STN" rfl rfl rfl
     (by norm_num) (by norm_num) (by norm_num)⟩

/-- Every element of `orderedPairs l` has both components in `l`. -/
theorem mem_orderedPairs {α : Type} {l : List α} {p : α × α}
    (h : p ∈ orderedPairs l) : p.1 ∈ l ∧ p.2 ∈ l := by
  induction l with
  | nil => simp [orderedPairs] at h
  | cons x xs ih =>
      simp only [orderedPairs, List.mem_append, List.mem_map] at h
      rcases h with ⟨y, hy, hxy⟩ | h
      · subst hxy
        exact ⟨List.mem_cons_self _ _, List.mem_cons_of_mem _ hy⟩
      · rcases ih h with ⟨h1, h2⟩
        exact ⟨List.mem_cons_of_mem _ h1, List.mem_cons_of_mem _ h2⟩

/-- The pairwise safety-distance detector over any ordered field and any
distance function: the pair `(t, u)` is flagged CRITICAL /
EMERGENCY_HALT exactly when its distance is strictly below 2. -/
theorem safety_detect_mem_iff {α : Type} [LinearOrderedField α]
    (dist : Position α → Position α → α) (ts : List (ActiveTrain α))
    (t u : ActiveTrain α) (hmem : (t, u) ∈ orderedPairs ts)
    (hnodup : (ts.map (fun x => x.trainId)).Nodup) :
    (∃ c ∈ detectSafetyDistanceViolations dist ts,
        c.trains = [t.trainId, u.trainId] ∧ c.severity = "CRITICAL" ∧
        c.recommendedAction = "EMERGENCY_HALT") ↔
      dist t.position u.position < 2 := by
  constructor
  · rintro ⟨c, hc, htr, -, -⟩
    simp only [detectSafetyDistanceViolations, List.mem_filterMap] at hc
    rcases hc with ⟨⟨a, b⟩, hab, hfab⟩
    by_cases hlt : dist a.position b.position < 2
    · rw [if_pos hlt] at hfab
      rcases Option.some.inj hfab with rfl
      rcases List.cons.inj htr with ⟨hat, hbu⟩
      rcases List.cons.inj hbu.symm with ⟨hbu', -⟩
      have hmem' := mem_orderedPairs hmem
      have habm := mem_orderedPairs hab
      have hat' : a = t :=
        List.inj_on_of_nodup_map hnodup habm.1 hmem'.1 hat
      have hbu'' : b = u :=
        List.inj_on_of_nodup_map hnodup habm.2 hmem'.2 hbu'.symm
      rw [← hat', ← hbu'']
      exact hlt
    · rw [if_neg hlt] at hfab
      exact absurd hfab (by simp)
  · intro hlt
    refine ⟨{ type := "SAFETY_DISTANCE_VIOLATION", severity := "CRITICAL"
              trains := [t.trainId, u.trainId]
              distance := dist t.position u.position, location := t.position
              recommendedAction := "EMERGENCY_HALT" },
      ?_, rfl, rfl, rfl⟩
    simp only [detectSafetyDistanceViolations, List.mem_filterMap]
    exact ⟨(t, u), hmem, by rw [if_pos hlt]⟩

/-- C1: with the haversine `calculateDistance` embedded from the
source, the safety-distance check flags a CRITICAL conflict with
recommended action EMERGENCY_HALT for a pair of active trains if and
only if the great-circle distance between their fused positions is
strictly less than 2 km (so a pair at exactly 2 km is not flagged and a
pair at 1.999 km is). -/
theorem safety_distance_critical_iff (ts : List (ActiveTrain ℝ))
    (t u : ActiveTrain ℝ) (hmem : (t, u) ∈ orderedPairs ts)
    (hnodup : (ts.map (fun x => x.trainId)).Nodup) :
    (∃ c ∈ detectSafetyDistanceViolations calculateDistance ts,
        c.trains = [t.trainId, u.trainId] ∧ c.severity = "CRITICAL" ∧
        c.recommendedAction = "EMERGENCY_HALT") ↔
      calculateDistance t.position u.position < 2 :=
  safety_detect_mem_iff calculateDistance ts t u hmem hnodup

/-- Witness for `safety_distance_critical_iff` at two concrete active
trains. -/
theorem safety_distance_critical_iff_witness :
    ((ActiveTrain.mk "A" ⟨0, 0⟩ (0 : ℝ), ActiveTrain.mk "B" ⟨0, 0⟩ (0 : ℝ)) ∈
      orderedPairs [ActiveTrain.mk "A" ⟨0, 0⟩ (0 : ℝ), ActiveTrain.mk "B" ⟨0, 0⟩ 0]) ∧
    (([ActiveTrain.mk "A" ⟨0, 0⟩ (0 : ℝ), ActiveTrain.mk "B" ⟨0, 0⟩ 0].map
        (fun x => x.trainId)).Nodup) ∧
    ((∃ c ∈ detectSafetyDistanceViolations calculateDistance
          [ActiveTrain.mk "A" ⟨0, 0⟩ (0 : ℝ), ActiveTrain.mk "B" ⟨0, 0⟩ 0],
        c.trains = [(ActiveTrain.mk "A" ⟨0, 0⟩ (0 : ℝ)).trainId,
          (ActiveTrain.mk "B" ⟨0, 0⟩ (0 : ℝ)).trainId] ∧
        c.severity = "CRITICAL" ∧ c.recommendedAction = "EMERGENCY_HALT") ↔
      calculateDistance (ActiveTrain.mk "A" ⟨0, 0⟩ (0 : ℝ)).position
        (ActiveTrain.mk "B" ⟨0, 0⟩ (0 : ℝ)).position < 2) :=
  ⟨by simp [orderedPairs], by simp,
   safety_distance_critical_iff _ _ _ (by simp [orderedPairs]) (by simp)⟩

/-- C8: on an empty train set the discrete event simulation produces
zero events and its average-delay and on-time metrics evaluate the JS
division `0 / 0`, a defined non-finite sentinel (`none` here, `NaN` in
JS) rather than a failure; the optimizer's `calculatePerformanceMetrics`
guards the empty schedule explicitly and returns 0 punctuality and 0
average delay. -/
theorem optimizer_empty_metrics_defined (trains : List OptTrain)
    (utilization : List PerfEntry → ℚ) :
    (runDiscreteEventSimulation { trains := [] }).events = [] ∧
    (runDiscreteEventSimulation { trains := [] }).metrics.averageDelay = none ∧
    (runDiscreteEventSimulation { trains := [] }).metrics.onTimePerformance = none ∧
    (runDiscreteEventSimulation { trains := [] }).metrics.conflicts = 0 ∧
    calculatePerformanceMetrics utilization [] trains =
      { throughput := 0, avgDelay := 0, punctuality := 0, utilization := 0
        conflicts := 0, safetyScore := 100 } := by
  refine ⟨?_, ?_, ?_, ?_, rfl⟩ <;>
    simp [runDiscreteEventSimulation, jsDiv, detectConflicts]

end IRTOMS
